import Mathlib

/-!
Shallow embedding of the record-management controllers of this repository.

The repository holds three REST controllers (`HistoricoFinanceiroController`,
`HistoricoAssociadoController`, `ArquivoAssociadoController`) that are
character-for-character identical except for the entity name and the name of
the foreign-key field (`financeiroId` / `historicoId` / `associadoId`).  We
therefore embed one controller, using the field names of
`HistoricoFinanceiroController`; every theorem about it holds verbatim for the
two sister controllers.

External collaborators (the AdonisJS router, the Lucid ORM, the request
validator and the auth provider) are embedded through their contracts at the
call sites: the store is a list of records plus an id counter, `findOrFail`
is lookup by primary key, `save` writes the record back by id, `query()` is
the full record list and `query().where('ativo', true)` is the filter on the
`ativo` column.  The outcome of `request.validate(...)` is an input of each
operation (`Except Err Campos`), and `auth.user?.nome` is an input
(`Option String`, `none` when no user is authenticated).
-/

namespace Arquivos

/-- Error values that can be caught by a controller's catch block.
`validationFailure` stands for the validator rejecting the body, `notFound`
for the `E_ROW_NOT_FOUND` failure of `Model.findOrFail`, `customError` for
`CustomErrorException` (its class lives in `App/Exceptions`, outside the
controller sources; modelled from the spec and its call sites as a carrier of
a message and an HTTP status), and `other` for any further runtime failure. -/
inductive Err where
  | validationFailure : Err
  | notFound : Err
  | customError (message : String) (statusCode : Nat) : Err
  | other (message : String) : Err
deriving DecidableEq, Repr

/-- One persisted record.  `financeiroId` is the foreign-key column
(named `historicoId` / `associadoId` in the sister entities), `documento` the
free-text column, `ativo` the status flag, `createdBy` / `updatedBy` the audit
columns (`none` models SQL NULL / an absent value). -/
structure Registro where
  id : Nat
  financeiroId : Nat
  documento : String
  ativo : Bool
  createdBy : Option String
  updatedBy : Option String
deriving DecidableEq, Repr

/-- The relational store backing one entity: the persisted rows plus the
next primary key the database sequence will assign. -/
structure Store where
  nextId : Nat
  registros : List Registro
deriving DecidableEq, Repr

/-- `Model.create({financeiroId, documento, createdBy})`: inserts a new row.
Modelled from the spec: the Lucid model class (`App/Models/...`) and its
migration are not under the controller sources, so the column defaults come
from the spec — `ativo` defaults to true at creation and `updatedBy` starts
absent; the database assigns the next id of the sequence. -/
def Store.create (s : Store) (financeiroId : Nat) (documento : String)
    (createdBy : Option String) : Registro × Store :=
  let r : Registro :=
    { id := s.nextId, financeiroId := financeiroId, documento := documento,
      ativo := true, createdBy := createdBy, updatedBy := none }
  (r, { nextId := s.nextId + 1, registros := s.registros ++ [r] })

/-- `Model.findOrFail(id)`: first row whose primary key is `id`, `none` when
absent (the ORM then throws its row-not-found failure). -/
def Store.findOrFail (s : Store) (id : Nat) : Option Registro :=
  s.registros.find? (fun r => r.id == id)

/-- `record.save()`: writes the record back over the row with its primary
key. -/
def Store.save (s : Store) (r : Registro) : Store :=
  { s with registros := s.registros.map (fun x => if x.id == r.id then r else x) }

/-- `Model.query()`: every row of the entity. -/
def Store.queryAll (s : Store) : List Registro :=
  s.registros

/-- `Model.query().where('ativo', true)`: the rows whose `ativo` column is
true. -/
def Store.queryAtivos (s : Store) : List Registro :=
  s.registros.filter (fun r => r.ativo)

/-- The two fields the validator extracts from the request body
(`CreateHistoricoFinanceiroValidator` and its siblings). -/
structure Campos where
  financeiroId : Nat
  documento : String
deriving DecidableEq, Repr

/-- The `message` field of the JSON envelope: the success paths send a fixed
string, the catch block sends the raw caught error value. -/
inductive Mensagem where
  | texto (s : String)
  | erro (e : Err)
deriving DecidableEq, Repr

/-- The `data` field of the JSON envelope: a single record or a list. -/
inductive Payload where
  | registro (r : Registro)
  | lista (rs : List Registro)
deriving DecidableEq, Repr

/-- The HTTP response: status code plus the JSON envelope
`{status, message, data?}` sent by `response.status(c).send({...})`. -/
structure Response where
  code : Nat
  status : Bool
  message : Mensagem
  data : Option Payload
deriving DecidableEq, Repr

/-- Body of `cadastrar` (the code inside its `try`): validate, insert the
record with `createdBy = auth.user?.nome`, answer 201. -/
def cadastrarBody (valida : Except Err Campos) (authNome : Option String)
    (s : Store) : Except Err (Response × Store) :=
  match valida with
  | .error e => .error e
  | .ok campos =>
    let criado := s.create campos.financeiroId campos.documento authNome
    .ok ({ code := 201, status := true,
           message := .texto "Registro cadastrado com sucesso!",
           data := some (.registro criado.1) }, criado.2)

/-- Body of `atualizar` (the code inside its `try`): find the record or fail,
validate, then reassign `historico = {...historico, financeiroId, documento,
updatedBy: auth.user?.nome ?? null}` and call `historico.save()`.  The object
spread copies only own enumerable properties, so the result is a plain object
without the model prototype's `save` method: `historico.save()` throws
`TypeError: historico.save is not a function` before anything is persisted,
and the store is left unchanged.  The 200 response written below the save is
unreachable on this path. -/
def atualizarBody (id : Nat) (valida : Except Err Campos)
    (_authNome : Option String) (s : Store) : Except Err (Response × Store) :=
  match s.findOrFail id with
  | none => .error .notFound
  | some _historico =>
    match valida with
    | .error e => .error e
    | .ok _campos =>
      .error (.other "TypeError: historico.save is not a function")

/-- Body of `ativar` (the code inside its `try`): find the record or fail,
negate `ativo`, set `updatedBy = auth.user?.nome ?? null`, save, answer 200
with a message that depends on the new `ativo` value. -/
def ativarBody (id : Nat) (authNome : Option String) (s : Store) :
    Except Err (Response × Store) :=
  match s.findOrFail id with
  | none => .error .notFound
  | some historico =>
    let novo := { historico with ativo := !historico.ativo, updatedBy := authNome }
    .ok ({ code := 200, status := true,
           message := .texto ("Registro "
             ++ (if novo.ativo then "ativado" else "inativado") ++ " com sucesso"),
           data := some (.registro novo) }, s.save novo)

/-- Body of `buscarTodos` (the code inside its `try`): fetch every row, throw
`CustomErrorException("Nenhum registro encontrado", 404)` when the list is
empty, otherwise answer 200 with the list. -/
def buscarTodosBody (s : Store) : Except Err (Response × Store) :=
  let historicos := s.queryAll
  if historicos.length ≤ 0 then
    .error (.customError "Nenhum registro encontrado" 404)
  else
    .ok ({ code := 200, status := true,
           message := .texto "Registros retornados com sucesso",
           data := some (.lista historicos) }, s)

/-- Body of `buscarAtivos` (the code inside its `try`): same as
`buscarTodos` but over the rows with `ativo = true`. -/
def buscarAtivosBody (s : Store) : Except Err (Response × Store) :=
  let historicos := s.queryAtivos
  if historicos.length ≤ 0 then
    .error (.customError "Nenhum registro encontrado" 404)
  else
    .ok ({ code := 200, status := true,
           message := .texto "Registros retornados com sucesso",
           data := some (.lista historicos) }, s)

/-- Body of `buscarPorId` (the code inside its `try`): find the record or
fail, answer 200 with it. -/
def buscarPorIdBody (id : Nat) (s : Store) : Except Err (Response × Store) :=
  match s.findOrFail id with
  | none => .error .notFound
  | some historico =>
    .ok ({ code := 200, status := true,
           message := .texto "Registro retornado com sucesso",
           data := some (.registro historico) }, s)

/-- One public controller operation together with the request-dependent
inputs its body consumes (validation outcome, path id, acting user name). -/
inductive Op where
  | cadastrar (valida : Except Err Campos) (authNome : Option String)
  | atualizar (id : Nat) (valida : Except Err Campos) (authNome : Option String)
  | ativar (id : Nat) (authNome : Option String)
  | buscarTodos
  | buscarAtivos
  | buscarPorId (id : Nat)

/-- The `try` body of each operation. -/
def runBody : Op → Store → Except Err (Response × Store)
  | .cadastrar valida authNome, s => cadastrarBody valida authNome s
  | .atualizar id valida authNome, s => atualizarBody id valida authNome s
  | .ativar id authNome, s => ativarBody id authNome s
  | .buscarTodos, s => buscarTodosBody s
  | .buscarAtivos, s => buscarAtivosBody s
  | .buscarPorId id, s => buscarPorIdBody id s

/-- The `catch` block shared verbatim by all six operations: any caught error
becomes HTTP 500 with `{status: false, message: <raw error>}`, the store left
as it was. -/
def catchError (body : Except Err (Response × Store)) (s : Store) :
    Response × Store :=
  match body with
  | .ok out => out
  | .error e => ({ code := 500, status := false, message := .erro e, data := none }, s)

/-- A full controller operation: its `try` body wrapped in the catch-all. -/
def run (op : Op) (s : Store) : Response × Store :=
  catchError (runBody op s) s

/-- A record and a store used to instantiate witnesses. -/
def regDemo : Registro :=
  { id := 1, financeiroId := 5, documento := "abc", ativo := true,
    createdBy := some "Ana", updatedBy := none }

/-- A one-record store used to instantiate witnesses. -/
def storeDemo : Store :=
  { nextId := 2, registros := [regDemo] }

/-- An inactive record used to instantiate witnesses. -/
def regInativo : Registro :=
  { id := 2, financeiroId := 9, documento := "xyz", ativo := false,
    createdBy := none, updatedBy := some "Bia" }

/-- A store holding one active and one inactive record, for witnesses. -/
def storeMisto : Store :=
  { nextId := 3, registros := [regDemo, regInativo] }

/-- C1: the claim (and the spec, and the method's own comment "Persiste no
banco o objeto atualizado") says an update on an existing record with a valid
body persists the new fields and answers HTTP 200; the code instead spreads
the model into a plain object, so `save()` throws a TypeError: every such
update answers HTTP 500 with the raw error and persists nothing. -/
theorem C1_atualizar_code_bug (s : Store) (id : Nat) (h : Registro)
    (campos : Campos) (authNome : Option String)
    (hfind : s.findOrFail id = some h) :
    run (.atualizar id (.ok campos) authNome) s =
      ({ code := 500, status := false,
         message := .erro (.other "TypeError: historico.save is not a function"),
         data := none }, s) := by
  simp [run, runBody, atualizarBody, catchError, hfind]

/-- Witness for C1: the failing input evaluated concretely — updating the
existing record id 1 with a valid body answers 500, not 200. -/
theorem C1_atualizar_code_bug_witness :
    storeDemo.findOrFail 1 = some regDemo ∧
    run (.atualizar 1 (.ok { financeiroId := 7, documento := "novo" }) (some "Bia"))
        storeDemo =
      ({ code := 500, status := false,
         message := .erro (.other "TypeError: historico.save is not a function"),
         data := none }, storeDemo) :=
  ⟨by decide, C1_atualizar_code_bug storeDemo 1 regDemo
      { financeiroId := 7, documento := "novo" } (some "Bia") (by decide)⟩

/-- C2: every caught failure of every operation — whatever its kind — yields
HTTP 500 with `{status: false, message: <the raw caught error value>}` and no
store change; the response does not depend on the error kind, so no kind gets
a distinct status code. -/
theorem C2_catch_all_500 (op : Op) (s : Store) (e : Err)
    (hb : runBody op s = .error e) :
    run op s =
      ({ code := 500, status := false, message := .erro e, data := none }, s) := by
  simp [run, catchError, hb]

/-- Witness for C2: `buscarTodos` on the empty store raises the custom
empty-result error and the catch-all turns it into the 500 envelope. -/
theorem C2_catch_all_500_witness :
    runBody .buscarTodos { nextId := 1, registros := [] } =
      .error (.customError "Nenhum registro encontrado" 404) ∧
    run .buscarTodos { nextId := 1, registros := [] } =
      ({ code := 500, status := false,
         message := .erro (.customError "Nenhum registro encontrado" 404),
         data := none }, { nextId := 1, registros := [] }) :=
  ⟨rfl, C2_catch_all_500 .buscarTodos { nextId := 1, registros := [] }
      (.customError "Nenhum registro encontrado" 404) rfl⟩

/-- A record found by primary-key lookup carries the looked-up key. -/
theorem findOrFail_id (s : Store) (id : Nat) (h : Registro)
    (hf : s.findOrFail id = some h) : h.id = id := by
  have hp := List.find?_some hf
  simpa using hp

/-- Writing a record back over the row with its key makes the subsequent
lookup of that key return exactly the written record. -/
theorem find?_save (l : List Registro) (id : Nat) (h r : Registro)
    (hf : l.find? (fun x => x.id == id) = some h) (hrid : r.id = id) :
    (l.map (fun x => if x.id == r.id then r else x)).find? (fun x => x.id == id)
      = some r := by
  induction l with
  | nil => simp [List.find?] at hf
  | cons a l ih =>
    rw [List.map_cons]
    by_cases hai : a.id = id
    · have hif : (if a.id == r.id then r else a) = r := by simp [hai, hrid]
      rw [hif]
      exact List.find?_cons_of_pos _ (by simp [hrid])
    · have hif : (if a.id == r.id then r else a) = a := by simp [hrid, hai]
      rw [hif]
      rw [List.find?_cons_of_neg _ (by simp [hai])]
      have htail : l.find? (fun x => x.id == id) = some h := by
        rwa [List.find?_cons_of_neg _ (by simp [hai])] at hf
      exact ih htail

/-- `findOrFail` after `save` of a record carrying the looked-up key. -/
theorem findOrFail_save (s : Store) (id : Nat) (h r : Registro)
    (hf : s.findOrFail id = some h) (hrid : r.id = id) :
    (s.save r).findOrFail id = some r := by
  unfold Store.findOrFail Store.save at *
  exact find?_save s.registros id h r hf hrid

/-- C3: a list-all call against an empty store, and a list-active call whose
filtered result set is empty, both fail with the empty-result condition
`CustomErrorException("Nenhum registro encontrado", 404)`, and the response
sent afterwards is not a success envelope (`status` is false). -/
theorem C3_lista_vazia_falha (s : Store) :
    (s.queryAll = [] →
      runBody .buscarTodos s = .error (.customError "Nenhum registro encontrado" 404) ∧
      (run .buscarTodos s).1.status = false) ∧
    (s.queryAtivos = [] →
      runBody .buscarAtivos s = .error (.customError "Nenhum registro encontrado" 404) ∧
      (run .buscarAtivos s).1.status = false) := by
  constructor
  · intro hvazio
    have hbody : runBody .buscarTodos s =
        .error (.customError "Nenhum registro encontrado" 404) := by
      simp [runBody, buscarTodosBody, hvazio]
    exact ⟨hbody, by simp [run, catchError, hbody]⟩
  · intro hvazio
    have hbody : runBody .buscarAtivos s =
        .error (.customError "Nenhum registro encontrado" 404) := by
      simp [runBody, buscarAtivosBody, hvazio]
    exact ⟨hbody, by simp [run, catchError, hbody]⟩

/-- Witness for C3: list-all over the empty store, and list-active over a
store holding only an inactive record. -/
theorem C3_lista_vazia_falha_witness :
    (Store.queryAll { nextId := 1, registros := [] } = [] ∧
      runBody .buscarTodos { nextId := 1, registros := [] } =
        .error (.customError "Nenhum registro encontrado" 404) ∧
      (run .buscarTodos { nextId := 1, registros := [] }).1.status = false) ∧
    (Store.queryAtivos { nextId := 3, registros := [regInativo] } = [] ∧
      runBody .buscarAtivos { nextId := 3, registros := [regInativo] } =
        .error (.customError "Nenhum registro encontrado" 404) ∧
      (run .buscarAtivos { nextId := 3, registros := [regInativo] }).1.status = false) :=
  ⟨⟨by decide, (C3_lista_vazia_falha { nextId := 1, registros := [] }).1 (by decide)⟩,
   ⟨by decide, (C3_lista_vazia_falha { nextId := 3, registros := [regInativo] }).2 (by decide)⟩⟩

/-- C4: a create call whose body passes validation produces a record whose
foreign-key and document fields equal the validated input, whose `ativo`
field is true, whose `createdBy` is the acting user's name (`none` when no
user is authenticated), and answers HTTP 201 with envelope
`{status: true, message: "Registro cadastrado com sucesso!", data: <created record>}`. -/
theorem C4_cadastrar_success (s : Store) (campos : Campos) (authNome : Option String) :
    run (.cadastrar (.ok campos) authNome) s =
      ({ code := 201, status := true,
         message := .texto "Registro cadastrado com sucesso!",
         data := some (.registro
           { id := s.nextId, financeiroId := campos.financeiroId,
             documento := campos.documento, ativo := true,
             createdBy := authNome, updatedBy := none }) },
       { nextId := s.nextId + 1,
         registros := s.registros ++
           [{ id := s.nextId, financeiroId := campos.financeiroId,
              documento := campos.documento, ativo := true,
              createdBy := authNome, updatedBy := none }] }) := by
  simp [run, runBody, cadastrarBody, catchError, Store.create]

/-- C5: a toggle call whose path id names an existing record negates the
record's `ativo` field, sets `updatedBy` to the acting user's name (`none`
models the explicit null), persists the record, and answers HTTP 200 whose
message is "Registro ativado com sucesso" when the record is now active and
"Registro inativado com sucesso" otherwise, with the updated record as data. -/
theorem C5_ativar_success (s : Store) (id : Nat) (h : Registro)
    (authNome : Option String) (hfind : s.findOrFail id = some h) :
    run (.ativar id authNome) s =
      ({ code := 200, status := true,
         message := .texto ("Registro "
           ++ (if !h.ativo then "ativado" else "inativado") ++ " com sucesso"),
         data := some (.registro { h with ativo := !h.ativo, updatedBy := authNome }) },
       s.save { h with ativo := !h.ativo, updatedBy := authNome }) := by
  simp [run, runBody, ativarBody, catchError, hfind]

/-- Witness for C5: toggling the active demo record yields the
"inativado" message and the record persisted with `ativo = false`. -/
theorem C5_ativar_success_witness :
    storeDemo.findOrFail 1 = some regDemo ∧
    run (.ativar 1 (some "Bia")) storeDemo =
      ({ code := 200, status := true,
         message := .texto "Registro inativado com sucesso",
         data := some (.registro { regDemo with ativo := false,
                                                updatedBy := some "Bia" }) },
       storeDemo.save { regDemo with ativo := false, updatedBy := some "Bia" }) :=
  ⟨by decide, C5_ativar_success storeDemo 1 regDemo (some "Bia") (by decide)⟩

/-- C6: the claim (with the spec) says an update changes exactly the
foreign-key field, the document field and `updatedBy` of the stored record,
preserving `ativo` and `createdBy`; the code instead throws at `save()`
(the spread drops the model prototype), so the store is left entirely
unchanged and the stored row never takes the new foreign-key, document or
`updatedBy` values — after the call it is still the original record. -/
theorem C6_atualizar_store_unchanged (s : Store) (id : Nat) (h : Registro)
    (campos : Campos) (authNome : Option String)
    (hfind : s.findOrFail id = some h) :
    (run (.atualizar id (.ok campos) authNome) s).2 = s ∧
    (run (.atualizar id (.ok campos) authNome) s).2.findOrFail id = some h := by
  have hrun : (run (.atualizar id (.ok campos) authNome) s).2 = s := by
    simp [run, runBody, atualizarBody, catchError, hfind]
  exact ⟨hrun, by rw [hrun]; exact hfind⟩

/-- Witness for C6: concretely, after updating record id 1 with a new
foreign key, document and user, the stored row is unchanged. -/
theorem C6_atualizar_store_unchanged_witness :
    storeDemo.findOrFail 1 = some regDemo ∧
    (run (.atualizar 1 (.ok { financeiroId := 7, documento := "novo" })
          (some "Bia")) storeDemo).2 = storeDemo ∧
    (run (.atualizar 1 (.ok { financeiroId := 7, documento := "novo" })
          (some "Bia")) storeDemo).2.findOrFail 1 = some regDemo :=
  ⟨by decide, C6_atualizar_store_unchanged storeDemo 1 regDemo
      { financeiroId := 7, documento := "novo" } (some "Bia") (by decide)⟩

/-- C7: toggling an existing record twice in succession leaves the stored
row's `ativo` field at the value it had before the first toggle. -/
theorem C7_ativar_duas_vezes (s : Store) (id : Nat) (h : Registro)
    (nome1 nome2 : Option String) (hfind : s.findOrFail id = some h) :
    ∃ h2, (run (.ativar id nome2) ((run (.ativar id nome1) s).2)).2.findOrFail id
            = some h2 ∧
      h2.ativo = h.ativo := by
  have hid : h.id = id := findOrFail_id s id h hfind
  have hrun1 : (run (.ativar id nome1) s).2 =
      s.save { h with ativo := !h.ativo, updatedBy := nome1 } := by
    simp [run, runBody, ativarBody, catchError, hfind]
  rw [hrun1]
  have hfind1 : (s.save { h with ativo := !h.ativo, updatedBy := nome1 }).findOrFail id =
      some { h with ativo := !h.ativo, updatedBy := nome1 } :=
    findOrFail_save s id h _ hfind hid
  have hrun2 : (run (.ativar id nome2)
        (s.save { h with ativo := !h.ativo, updatedBy := nome1 })).2 =
      (s.save { h with ativo := !h.ativo, updatedBy := nome1 }).save
        { h with ativo := h.ativo, updatedBy := nome2 } := by
    simp [run, runBody, ativarBody, catchError, hfind1]
  rw [hrun2]
  refine ⟨{ h with ativo := h.ativo, updatedBy := nome2 }, ?_, rfl⟩
  exact findOrFail_save _ id _ _ hfind1 hid

/-- Witness for C7: toggling the demo record twice restores `ativo = true`. -/
theorem C7_ativar_duas_vezes_witness :
    storeDemo.findOrFail 1 = some regDemo ∧
    ∃ h2, (run (.ativar 1 none) ((run (.ativar 1 (some "Bia")) storeDemo).2)).2.findOrFail 1
            = some h2 ∧
      h2.ativo = regDemo.ativo :=
  ⟨by decide, C7_ativar_duas_vezes storeDemo 1 regDemo (some "Bia") none (by decide)⟩

/-- C8: a list-active call against a store whose active subset is non-empty
answers HTTP 200 with exactly the records whose `ativo` field is true, and a
record is in the returned list precisely when it is a stored record with
`ativo = true`. -/
theorem C8_buscar_ativos_filtra (s : Store) (hne : s.queryAtivos ≠ []) :
    run .buscarAtivos s =
      ({ code := 200, status := true,
         message := .texto "Registros retornados com sucesso",
         data := some (.lista s.queryAtivos) }, s) ∧
    ∀ r, r ∈ s.queryAtivos ↔ (r ∈ s.registros ∧ r.ativo = true) := by
  have hlen : ¬ (s.queryAtivos.length ≤ 0) := by
    simpa [Nat.le_zero, List.length_eq_zero] using hne
  constructor
  · simp [run, runBody, buscarAtivosBody, catchError, hlen]
  · intro r
    simp [Store.queryAtivos, List.mem_filter]

/-- Witness for C8: on a store holding one active and one inactive record
the returned list has length 1 and holds exactly the active record. -/
theorem C8_buscar_ativos_filtra_witness :
    storeMisto.queryAtivos ≠ [] ∧
    run .buscarAtivos storeMisto =
      ({ code := 200, status := true,
         message := .texto "Registros retornados com sucesso",
         data := some (.lista storeMisto.queryAtivos) }, storeMisto) ∧
    storeMisto.queryAtivos = [regDemo] ∧
    storeMisto.queryAtivos.length = 1 :=
  ⟨by decide, (C8_buscar_ativos_filtra storeMisto (by decide)).1, by decide, by decide⟩

/-- C9: a get-by-id call on an absent id fails with the store's NotFound
failure (not the custom empty-result condition used by the list operations),
while on an existing id it answers HTTP 200 with message
"Registro retornado com sucesso" and that single record, leaving the store
unchanged in both cases. -/
theorem C9_buscar_por_id (s : Store) (id : Nat) :
    (s.findOrFail id = none →
      runBody (.buscarPorId id) s = .error .notFound ∧
      run (.buscarPorId id) s =
        ({ code := 500, status := false, message := .erro .notFound, data := none }, s)) ∧
    (∀ h, s.findOrFail id = some h →
      run (.buscarPorId id) s =
        ({ code := 200, status := true,
           message := .texto "Registro retornado com sucesso",
           data := some (.registro h) }, s)) := by
  constructor
  · intro hnone
    have hbody : runBody (.buscarPorId id) s = .error .notFound := by
      simp [runBody, buscarPorIdBody, hnone]
    exact ⟨hbody, by simp [run, catchError, hbody]⟩
  · intro h hsome
    simp [run, runBody, buscarPorIdBody, catchError, hsome]

/-- Witness for C9: looking up id 9 in the demo store fails NotFound and is
answered 500; looking up id 1 answers 200 with the record, store unchanged. -/
theorem C9_buscar_por_id_witness :
    (storeDemo.findOrFail 9 = none ∧
      runBody (.buscarPorId 9) storeDemo = .error .notFound ∧
      run (.buscarPorId 9) storeDemo =
        ({ code := 500, status := false, message := .erro .notFound, data := none },
         storeDemo)) ∧
    (storeDemo.findOrFail 1 = some regDemo ∧
      run (.buscarPorId 1) storeDemo =
        ({ code := 200, status := true,
           message := .texto "Registro retornado com sucesso",
           data := some (.registro regDemo) }, storeDemo)) :=
  ⟨⟨by decide, (C9_buscar_por_id storeDemo 9).1 (by decide)⟩,
   ⟨by decide, (C9_buscar_por_id storeDemo 1).2 regDemo (by decide)⟩⟩

/-- Every operation's response carries status code 200, 201 or 500: the
success paths send 200 or 201 and the shared catch block sends 500. -/
theorem run_code_cases (op : Op) (s : Store) :
    (run op s).1.code = 200 ∨ (run op s).1.code = 201 ∨ (run op s).1.code = 500 := by
  cases op with
  | cadastrar valida authNome =>
    cases valida with
    | error e => simp [run, runBody, cadastrarBody, catchError]
    | ok campos => simp [run, runBody, cadastrarBody, catchError]
  | atualizar id valida authNome =>
    cases hfind : s.findOrFail id with
    | none => simp [run, runBody, atualizarBody, catchError, hfind]
    | some h =>
      cases valida with
      | error e => simp [run, runBody, atualizarBody, catchError, hfind]
      | ok campos => simp [run, runBody, atualizarBody, catchError, hfind]
  | ativar id authNome =>
    cases hfind : s.findOrFail id with
    | none => simp [run, runBody, ativarBody, catchError, hfind]
    | some h => simp [run, runBody, ativarBody, catchError, hfind]
  | buscarTodos =>
    by_cases hlen : s.queryAll.length ≤ 0
    · simp [run, runBody, buscarTodosBody, catchError, hlen]
    · simp [run, runBody, buscarTodosBody, catchError, hlen]
  | buscarAtivos =>
    by_cases hlen : s.queryAtivos.length ≤ 0
    · simp [run, runBody, buscarAtivosBody, catchError, hlen]
    · simp [run, runBody, buscarAtivosBody, catchError, hlen]
  | buscarPorId id =>
    cases hfind : s.findOrFail id with
    | none => simp [run, runBody, buscarPorIdBody, catchError, hfind]
    | some h => simp [run, runBody, buscarPorIdBody, catchError, hfind]

/-- C10: every operation is total — `run` is a function returning exactly one
response, always an envelope with boolean `status` and a `message` — and its
status code is always 200, 201 or 500, never 404, even though the list
operations construct a 404-coded exception (shown on the empty store, where
`buscarAtivos` raises the 404-coded error yet the response code is 500). -/
theorem C10_codigos_de_status :
    (∀ op s, ((run op s).1.code = 200 ∨ (run op s).1.code = 201 ∨
              (run op s).1.code = 500) ∧
             (run op s).1.code ≠ 404) ∧
    runBody .buscarAtivos { nextId := 1, registros := [] } =
      .error (.customError "Nenhum registro encontrado" 404) ∧
    (run .buscarAtivos { nextId := 1, registros := [] }).1.code = 500 := by
  refine ⟨fun op s => ⟨run_code_cases op s, ?_⟩, rfl, rfl⟩
  rcases run_code_cases op s with hc | hc | hc <;> rw [hc] <;> decide

end Arquivos
